import Mathlib

/-!
Shallow embedding of the transaction-relay subsystem of the mon-hackathon
gateway (src/gateway): the durable tx queue (`database.py`), the nonce
manager and contract client (`contract.py`), the background submission
worker (`tx_worker.py`), the reward ledger (`award_xp` /
`rebuild_agent_stats` in `database.py`) and the admission handlers
(`main.py`).  Machine integers are modelled as `Nat`; timestamps
(`time.time()`) are modelled as `Nat` ticks; SQL rows are Lean structures
and tables are lists of rows; SQL `NULL` for nullable columns is `Option`.
-/

namespace Gateway

/-- Lifecycle status of a `tx_queue` row.  The source stores it as the TEXT
column `status` taking exactly the values written by `main.py` (pending on
insert) and `tx_worker.py` (submitting/submitted/mined/failed). -/
inductive Status
  | pending
  | submitting
  | submitted
  | mined
  | failed
deriving DecidableEq, Repr

/-- Position of a status along the lifecycle chain
pending → submitting → submitted → mined/failed; the two terminal states
share the last position. -/
def Status.rank : Status → Nat
  | .pending => 0
  | .submitting => 1
  | .submitted => 2
  | .mined => 3
  | .failed => 3

/-- One row of the `tx_queue` table (schema in `db_backend.py`,
`SQLITE_SCHEMA`): id INTEGER PRIMARY KEY AUTOINCREMENT, action_id,
moltbook_id, method, params TEXT, status TEXT, tx_hash TEXT NULL,
error TEXT NULL, created_at, updated_at, UNIQUE(moltbook_id, action_id). -/
structure TxRow where
  id : Nat
  action_id : String
  moltbook_id : String
  method : String
  params : String
  status : Status
  tx_hash : Option String
  error : Option String
  created_at : Nat
  updated_at : Nat
deriving DecidableEq, Repr

/-- The uniqueness key of `tx_queue`: UNIQUE(moltbook_id, action_id). -/
def tx_key (moltbook_id action_id : String) (r : TxRow) : Bool :=
  r.moltbook_id == moltbook_id && r.action_id == action_id

/-- Whether a row with the given (moltbook_id, action_id) key exists; this is
what the UNIQUE(moltbook_id, action_id) constraint checks on INSERT. -/
def tx_key_exists (db : List TxRow) (moltbook_id action_id : String) : Bool :=
  db.any (tx_key moltbook_id action_id)

/-- AUTOINCREMENT id for the next inserted row: one past the largest id ever
used (rows are never deleted, so the maximum over current rows suffices). -/
def next_tx_id (db : List TxRow) : Nat :=
  db.foldr (fun r acc => max r.id acc) 0 + 1

/-- `database.enqueue_tx`: INSERT a fresh 'pending' row.  The
UNIQUE(moltbook_id, action_id) table constraint makes the INSERT fail
(IntegrityError) when a row with the same key already exists; that failure
is modelled as `Except.error`.  On success returns the new table and the
AUTOINCREMENT id (`lastrowid`). -/
def enqueue_tx (db : List TxRow) (action_id moltbook_id method params : String)
    (now : Nat) : Except String (List TxRow × Nat) :=
  if tx_key_exists db moltbook_id action_id then
    Except.error "UNIQUE constraint failed: tx_queue.moltbook_id, tx_queue.action_id"
  else
    let i := next_tx_id db
    Except.ok
      (db ++ [{ id := i, action_id := action_id, moltbook_id := moltbook_id,
                method := method, params := params, status := Status.pending,
                tx_hash := none, error := none,
                created_at := now, updated_at := now }], i)

/-- `database.get_tx`: SELECT * FROM tx_queue WHERE id = ?. -/
def get_tx (db : List TxRow) (tx_id : Nat) : Option TxRow :=
  db.find? (fun r => r.id == tx_id)

/-- `database.get_tx_by_action`: SELECT * FROM tx_queue WHERE
moltbook_id = ? AND action_id = ?. -/
def get_tx_by_action (db : List TxRow) (moltbook_id action_id : String) :
    Option TxRow :=
  db.find? (tx_key moltbook_id action_id)

/-- `database.update_tx_status`: UPDATE tx_queue SET status = ?, tx_hash = ?,
error = ?, updated_at = ? WHERE id = ?.  Note that the UPDATE always
overwrites `tx_hash` and `error` with the passed values (the Python
defaults are None), never merging with the stored ones. -/
def update_tx_status (db : List TxRow) (tx_id : Nat) (status : Status)
    (tx_hash error : Option String) (now : Nat) : List TxRow :=
  db.map (fun r =>
    if r.id == tx_id then
      { r with status := status, tx_hash := tx_hash, error := error,
               updated_at := now }
    else r)

/-- `database.count_recent_txs`: COUNT(*) of the caller's rows with
created_at > now - window_seconds (all statuses count). -/
def count_recent_txs (db : List TxRow) (moltbook_id : String)
    (now window_seconds : Nat) : Nat :=
  (db.filter (fun r =>
    r.moltbook_id == moltbook_id && decide (now - window_seconds < r.created_at))).length

/-- `config.Settings.max_tx_per_hour` (default 10). -/
def max_tx_per_hour : Nat := 10

/-! ### NonceManager (`contract.py`)

`NonceManager` holds `_nonce : int | None` behind an `asyncio.Lock`; the
whole body of `get_nonce` runs inside the lock, so an allocation is one
atomic step of the model.  `ledger` is the value
`w3.eth.get_transaction_count(address, "pending")` would return on the
lazy first load. -/

/-- `NonceManager.get_nonce`: if nothing is cached, load the pending
transaction count from the ledger and cache it; otherwise increment the
cache; return the (new) cached value together with the new cache state. -/
def get_nonce (ledger : Nat) : Option Nat → Nat × Option Nat
  | none => (ledger, some ledger)
  | some n => (n + 1, some (n + 1))

/-- Results of `k` successive `get_nonce` allocations starting from cache
state `st` (the ledger value is read at most once, on the first load). -/
def nonce_run (ledger : Nat) : Nat → Option Nat → List Nat
  | 0, _ => []
  | k + 1, st =>
    let p := get_nonce ledger st
    p.1 :: nonce_run ledger k p.2

/-- `NonceManager.reset`: drop the cache (defined in the source, never
called from any submission path). -/
def nonce_reset (_ : Option Nat) : Option Nat := none

/-! ### ContractClient.send_tx (`contract.py`) and the worker's call

`ContractClient.send_tx(self, method, *args)` allocates a nonce through the
NonceManager and then runs the post-allocation external steps — the
`w3.eth.gas_price` read, `build_transaction`, `sign_transaction`,
`send_raw_transaction` — any of which can raise; a raise there leaves the
cache incremented (`reset` is never called from any submission path), so
the allocated nonce is burned and never broadcast.  The built transaction
dict has exactly the keys from / nonce / chainId / gas / gasPrice — no
"value" key — and the signature accepts no keyword argument besides the
positional `method` and `*args`; `tx_worker.process_single_tx`
nevertheless invokes it as `client.send_tx(method, *params, value=value)`.
Between `get_nonce` and `send_raw_transaction` the source contains no
`await` (those web3 calls are synchronous), so within one asyncio event
loop the post-allocation section runs without another coroutine
interleaving; successive calls therefore compose back-to-back. -/

/-- The transaction dict built by `ContractClient.send_tx`
(contract.py, `fn.build_transaction({...})`): keys from, nonce, chainId,
gas (500_000), gasPrice (int(gas_price * 1.5)).  It has no `value` entry. -/
structure BuiltTx where
  sender : String
  nonce : Nat
  chainId : Nat
  gas : Nat
  gasPrice : Nat
deriving DecidableEq, Repr

/-- Keyword parameters accepted by `ContractClient.send_tx`: the Python
signature is `(self, method: str, *args)`, so there are none. -/
def send_tx_keyword_params : List String := []

/-- `config.Settings.chain_id` (Monad testnet). -/
def chain_id : Nat := 10143

/-- Python call semantics for `client.send_tx(...)` with a possible keyword
argument list: passing a keyword that is not a parameter of the callee
raises `TypeError` before the body runs (the nonce cache is untouched);
otherwise the body of `contract.ContractClient.send_tx` executes: allocate
the nonce through the NonceManager, then run the fallible post-allocation
external steps (gas-price read, build, sign, broadcast), whose outcome is
the environment parameter `broadcast_ok`.  Returns the call result (built
transaction, or the raised error) together with the new nonce-cache state
— which on a post-allocation failure stays incremented: the nonce is
burned. -/
def call_send_tx (st : Option Nat) (ledger gas_price : Nat) (method : String)
    (args : List String) (kwargs : List (String × Nat)) (broadcast_ok : Bool) :
    Except String BuiltTx × Option Nat :=
  if kwargs.any (fun kv => !(send_tx_keyword_params.contains kv.1)) then
    (Except.error "TypeError: send_tx() got an unexpected keyword argument", st)
  else
    let p := get_nonce ledger st
    let _ := (method, args)
    if broadcast_ok then
      (Except.ok { sender := "runner", nonce := p.1, chainId := chain_id,
                   gas := 500000, gasPrice := gas_price * 3 / 2 }, p.2)
    else
      (Except.error "BroadcastError", p.2)

/-- A back-to-back sequence of `send_tx` calls (no stray keywords) on the
shared nonce cache, each with its own post-allocation outcome; back-to-back
composition is faithful in-process because the source has no suspension
point between allocation and broadcast. -/
def send_tx_calls (ledger gas_price : Nat) (method : String)
    (args : List String) : List Bool → Option Nat → List (Except String BuiltTx)
  | [], _ => []
  | b :: rest, st =>
      let r := call_send_tx st ledger gas_price method args [] b
      r.1 :: send_tx_calls ledger gas_price method args rest r.2

/-- The nonces actually carried by the successful broadcasts of a call
sequence. -/
def broadcast_nonces (rs : List (Except String BuiltTx)) : List Nat :=
  rs.filterMap (fun r =>
    match r with
    | Except.ok tx => some tx.nonce
    | Except.error _ => none)

/-! ### Submission worker (`tx_worker.py`) -/

/-- `tx_worker.ENTRY_BOND`: 0.01 MON in wei. -/
def ENTRY_BOND : Nat := 10000000000000000

/-- The `value` computed by `tx_worker.process_single_tx`:
`ENTRY_BOND if method == "enterDungeon" else 0`. -/
def worker_value (method : String) : Nat :=
  if method == "enterDungeon" then ENTRY_BOND else 0

/-- The exact call the worker makes:
`client.send_tx(method, *params, value=value)` — `value` is passed as a
keyword argument. -/
def worker_send (st : Option Nat) (ledger gas_price : Nat) (method : String)
    (params : List String) (broadcast_ok : Bool) :
    Except String BuiltTx × Option Nat :=
  call_send_tx st ledger gas_price method params
    [("value", worker_value method)] broadcast_ok

/-! ### Reward ledger (`database.award_xp`, `database.rebuild_agent_stats`)

Tables `xp_events` (append-only, `idempotency_key TEXT UNIQUE NOT NULL`)
and `agent_stats` (`moltbook_id TEXT PRIMARY KEY`) from `db_backend.py`.
The three counter columns default to 0 but can be written NULL by
`rebuild_agent_stats` (SQL `SUM` over zero rows is NULL and only the xp and
gold sums are COALESCEd), so they are `Option Nat` here; `NULL + 1` is NULL
in SQL, hence `Option.map (· + 1)` for the increments. -/

/-- One row of `xp_events`. -/
structure XpEvent where
  idempotency_key : String
  moltbook_id : String
  session_id : Nat
  epoch_id : Nat
  event_type : String
  xp_amount : Nat
  gold_amount : Nat
  source : String
  metadata : Option String
  created_at : Nat
deriving DecidableEq, Repr

/-- One row of `agent_stats`. -/
structure AgentStats where
  moltbook_id : String
  display_name : Option String
  total_xp : Nat
  current_level : String
  lifetime_sessions : Option Nat
  lifetime_wins : Option Nat
  lifetime_gold : Nat
  dm_sessions : Option Nat
  last_session_at : Option Nat
  created_at : Nat
deriving DecidableEq, Repr

/-- The reward-ledger portion of the database. -/
structure RewardDb where
  xp_events : List XpEvent
  agent_stats : List AgentStats
deriving DecidableEq, Repr

/-- Whether an `xp_events` row with the given idempotency key exists; this is
what the UNIQUE constraint on `idempotency_key` checks on INSERT. -/
def has_event_key (evs : List XpEvent) (key : String) : Bool :=
  evs.any (fun e => e.idempotency_key == key)

/-- SELECT * FROM agent_stats WHERE moltbook_id = ?
(`database.get_agent_full_stats`). -/
def get_agent_full_stats (db : RewardDb) (moltbook_id : String) :
    Option AgentStats :=
  db.agent_stats.find? (fun r => r.moltbook_id == moltbook_id)

/-- The CASE expression in `award_xp`'s ON CONFLICT DO UPDATE arm: the level
computed from `agent_stats.total_xp + EXCLUDED.total_xp`. -/
def award_level (old_total xp : Nat) : String :=
  if old_total + xp >= 10000 then "legend"
  else if old_total + xp >= 2000 then "veteran"
  else if old_total + xp >= 500 then "adventurer"
  else "novice"

/-- The upsert in `award_xp`: INSERT INTO agent_stats (moltbook_id, total_xp,
lifetime_gold, created_at) VALUES (...) ON CONFLICT(moltbook_id) DO UPDATE
SET total_xp, lifetime_gold, current_level.  On a fresh insert the other
columns take their schema defaults: current_level 'novice', counters 0,
display_name and last_session_at NULL. -/
def upsert_agent_stats (stats : List AgentStats) (moltbook_id : String)
    (xp_amount gold_amount now : Nat) : List AgentStats :=
  if stats.any (fun r => r.moltbook_id == moltbook_id) then
    stats.map (fun r =>
      if r.moltbook_id == moltbook_id then
        { r with total_xp := r.total_xp + xp_amount,
                 lifetime_gold := r.lifetime_gold + gold_amount,
                 current_level := award_level r.total_xp xp_amount }
      else r)
  else
    stats ++ [{ moltbook_id := moltbook_id, display_name := none,
                total_xp := xp_amount, current_level := "novice",
                lifetime_sessions := some 0, lifetime_wins := some 0,
                lifetime_gold := gold_amount, dm_sessions := some 0,
                last_session_at := none, created_at := now }]

/-- The event-type-specific UPDATEs at the end of `award_xp`: dm_hosted
increments dm_sessions; session_complete increments lifetime_sessions and
sets last_session_at; win increments lifetime_wins; anything else changes
nothing. -/
def apply_event_type_update (stats : List AgentStats)
    (moltbook_id event_type : String) (now : Nat) : List AgentStats :=
  if event_type == "dm_hosted" then
    stats.map (fun r =>
      if r.moltbook_id == moltbook_id then
        { r with dm_sessions := r.dm_sessions.map (· + 1) }
      else r)
  else if event_type == "session_complete" then
    stats.map (fun r =>
      if r.moltbook_id == moltbook_id then
        { r with lifetime_sessions := r.lifetime_sessions.map (· + 1),
                 last_session_at := some now }
      else r)
  else if event_type == "win" then
    stats.map (fun r =>
      if r.moltbook_id == moltbook_id then
        { r with lifetime_wins := r.lifetime_wins.map (· + 1) }
      else r)
  else stats

/-- `database.award_xp`: inside one transaction, INSERT the event row and
apply the stats upsert plus the event-type update; a UNIQUE violation on
`idempotency_key` (detected from the raised error, not a pre-check) rolls
the whole transaction back and returns False. -/
def award_xp (db : RewardDb) (idempotency_key moltbook_id : String)
    (session_id epoch_id : Nat) (event_type : String)
    (xp_amount gold_amount : Nat) (source : String) (metadata : Option String)
    (now : Nat) : RewardDb × Bool :=
  if has_event_key db.xp_events idempotency_key then
    (db, false)
  else
    ({ xp_events := db.xp_events ++
        [{ idempotency_key := idempotency_key, moltbook_id := moltbook_id,
           session_id := session_id, epoch_id := epoch_id,
           event_type := event_type, xp_amount := xp_amount,
           gold_amount := gold_amount, source := source,
           metadata := metadata, created_at := now }],
       agent_stats := apply_event_type_update
         (upsert_agent_stats db.agent_stats moltbook_id xp_amount gold_amount now)
         moltbook_id event_type now },
     true)

/-- The if-chain computing `level` in `rebuild_agent_stats`. -/
def rebuild_level (total_xp : Nat) : String :=
  if total_xp >= 10000 then "legend"
  else if total_xp >= 2000 then "veteran"
  else if total_xp >= 500 then "adventurer"
  else "novice"

/-- The subject's rows: WHERE moltbook_id = ? over `xp_events`. -/
def events_for (evs : List XpEvent) (moltbook_id : String) : List XpEvent :=
  evs.filter (fun e => e.moltbook_id == moltbook_id)

/-- SQL `SUM(CASE WHEN event_type = t THEN 1 ELSE 0 END)` over the subject's
rows: NULL when the subject has no rows at all, otherwise the count. -/
def sum_case_count (rows : List XpEvent) (t : String) : Option Nat :=
  if rows.isEmpty then none
  else some (rows.filter (fun e => e.event_type == t)).length

/-- The single row returned by the aggregate SELECT in
`rebuild_agent_stats`; only the xp and gold sums are COALESCE(..., 0). -/
structure RebuildRow where
  total_xp : Nat
  total_gold : Nat
  sessions : Option Nat
  wins : Option Nat
  dm_sessions : Option Nat
deriving DecidableEq, Repr

/-- The aggregate SELECT of `rebuild_agent_stats` over `xp_events`. -/
def rebuild_query (evs : List XpEvent) (moltbook_id : String) : RebuildRow :=
  let rows := events_for evs moltbook_id
  { total_xp := (rows.map (fun e => e.xp_amount)).sum,
    total_gold := (rows.map (fun e => e.gold_amount)).sum,
    sessions := sum_case_count rows "session_complete",
    wins := sum_case_count rows "win",
    dm_sessions := sum_case_count rows "dm_hosted" }

/-- `database.rebuild_agent_stats`: recompute the aggregates from
`xp_events` and upsert them into `agent_stats`, overwriting total_xp,
lifetime_gold, lifetime_sessions, lifetime_wins, dm_sessions and
current_level (display_name and last_session_at are not touched by the
DO UPDATE arm).  A SQL aggregate query always yields exactly one row, so
the `if not rows: return` guard in the source never fires. -/
def rebuild_agent_stats (db : RewardDb) (moltbook_id : String) (now : Nat) :
    RewardDb :=
  let r := rebuild_query db.xp_events moltbook_id
  let level := rebuild_level r.total_xp
  let stats :=
    if db.agent_stats.any (fun s => s.moltbook_id == moltbook_id) then
      db.agent_stats.map (fun s =>
        if s.moltbook_id == moltbook_id then
          { s with total_xp := r.total_xp, lifetime_gold := r.total_gold,
                   lifetime_sessions := r.sessions, lifetime_wins := r.wins,
                   dm_sessions := r.dm_sessions, current_level := level }
        else s)
    else
      db.agent_stats ++
        [{ moltbook_id := moltbook_id, display_name := none,
           total_xp := r.total_xp, current_level := level,
           lifetime_sessions := r.sessions, lifetime_wins := r.wins,
           lifetime_gold := r.total_gold, dm_sessions := r.dm_sessions,
           last_session_at := none, created_at := now }]
  { db with agent_stats := stats }

/-! ### `tx_worker.process_single_tx`

The worker marks the entry submitting, invokes `client.send_tx`, and on
success records the hash and polls `client.get_receipt` up to 15 times
(2 seconds apart).  The chain's behaviour — the outcome of the broadcast
call and what each receipt poll returns — is an environment parameter
(`ChainEnv`); in the source as it stands the broadcast call always raises
`TypeError` (see `worker_send`), which is the `Except.error` case of
`send_result`. -/

/-- External-chain behaviour seen by one `process_single_tx` run:
the outcome of the `client.send_tx(...)` call (error message or tx hash)
and the result of the i-th `client.get_receipt` poll (`none` = no receipt
yet, `some b` = receipt with `status == 1` iff `b`). -/
structure ChainEnv where
  send_result : Except String String
  receipts : Nat → Option Bool

/-- The receipt the 15-attempt polling loop acts on: the first non-None
result among polls 0..14, if any. -/
def poll_result (receipts : Nat → Option Bool) : Option Bool :=
  (List.range 15).findSome? receipts

/-- `tx_worker.process_single_tx` acting on the tx row `tx`: returns the
updated queue table and reward database.  Mirrors the source: mark
submitting (tx_hash and error overwritten with None); on a raised broadcast
error mark failed with the error text (tx_hash again None); on broadcast
success mark submitted with the hash, then poll; on a found receipt mark
mined/failed (hash passed again) and award the fixed 10-xp participation
credit keyed by `tx_mined:<id>` when mined; on poll exhaustion leave the
entry submitted and only log a warning. -/
def process_single_tx (env : ChainEnv) (db : List TxRow) (rdb : RewardDb)
    (tx : TxRow) (now : Nat) : List TxRow × RewardDb :=
  let db1 := update_tx_status db tx.id Status.submitting none none now
  match env.send_result with
  | Except.error e =>
      (update_tx_status db1 tx.id Status.failed none (some e) now, rdb)
  | Except.ok h =>
      let db2 := update_tx_status db1 tx.id Status.submitted (some h) none now
      match poll_result env.receipts with
      | none => (db2, rdb)
      | some ok =>
          let st := if ok then Status.mined else Status.failed
          let db3 := update_tx_status db2 tx.id st (some h) none now
          if ok then
            (db3, (award_xp rdb ("tx_mined:" ++ toString tx.id)
                     tx.moltbook_id 0 0 ("tx_" ++ tx.method) 10 0
                     "tx_worker" none now).1)
          else (db3, rdb)

/-- The successive queue tables produced by the `update_tx_status` calls
inside `process_single_tx`, in order (same branch structure; used to state
the status-monotonicity invariant over every intermediate state).
`process_dbs_last_eq` ties it to `process_single_tx`. -/
def process_dbs (env : ChainEnv) (db : List TxRow) (tx : TxRow) (now : Nat) :
    List (List TxRow) :=
  let db1 := update_tx_status db tx.id Status.submitting none none now
  match env.send_result with
  | Except.error e =>
      [db1, update_tx_status db1 tx.id Status.failed none (some e) now]
  | Except.ok h =>
      let db2 := update_tx_status db1 tx.id Status.submitted (some h) none now
      match poll_result env.receipts with
      | none => [db1, db2]
      | some ok =>
          let st := if ok then Status.mined else Status.failed
          [db1, db2, update_tx_status db2 tx.id st (some h) none now]

/-- `database.get_pending_txs` (without the ORDER BY, which only fixes the
processing order): the worker's batch is drawn from rows whose status is
'pending'. -/
def get_pending_txs (db : List TxRow) (limit : Nat) : List TxRow :=
  (db.filter (fun r => r.status == Status.pending)).take limit

/-! ### Admission (`main.py`)

`validate_turn_index` reads a fresh session snapshot through
`contract.ContractClient.get_session_info` (modelled as a function from
session id to an optional snapshot) and the `/game/action` handler chains
rate limiting, the idempotency check, validation, the wallet-binding
lookup and the enqueue. -/

/-- The session snapshot dict built by
`contract.ContractClient.get_session_info` (states per `SESSION_STATES`:
2 = Active). -/
structure SessionInfo where
  session_id : Nat
  dungeon_id : Nat
  dm : Option String
  state : Nat
  state_name : String
  current_turn : Nat
  current_actor : Option String
  turn_deadline : Nat
  gold_pool : Nat
  max_gold : Nat
  dm_accept_deadline : Nat
  last_activity : Nat
  dm_epoch : Nat
  epoch_id : Nat
deriving DecidableEq, Repr

/-- Outcome of `main.validate_turn_index`: either the snapshot, or the
JSON error response (code, HTTP status, and the extra keys the handler
attaches: current_state for SESSION_NOT_ACTIVE, expected/got for
TURN_MISMATCH). -/
inductive ValidationOutcome
  | ok (info : SessionInfo)
  | err (code : String) (httpStatus : Nat) (current_state expected got : Option Nat)
deriving DecidableEq, Repr

/-- `main.validate_turn_index`: SESSION_NOT_FOUND when the ledger has no
such session, SESSION_NOT_ACTIVE when its state is not 2 (Active),
TURN_MISMATCH with expected = the ledger's current turn and got = the
declared index when they differ, otherwise the snapshot. -/
def validate_turn_index (sessions : Nat → Option SessionInfo)
    (session_id turn_index : Nat) : ValidationOutcome :=
  match sessions session_id with
  | none => ValidationOutcome.err "SESSION_NOT_FOUND" 404 none none none
  | some info =>
      if info.state ≠ 2 then
        ValidationOutcome.err "SESSION_NOT_ACTIVE" 409 (some info.state) none none
      else if turn_index ≠ info.current_turn then
        ValidationOutcome.err "TURN_MISMATCH" 409 none
          (some info.current_turn) (some turn_index)
      else ValidationOutcome.ok info

/-- What the `/game/action` handler returns to the caller. -/
inductive ActionResponse
  | txStatus (id : Nat) (action_id : String) (status : Status)
      (tx_hash error : Option String)
  | rejected (code : String) (httpStatus : Nat)
      (current_state expected got : Option Nat)
  | httpError (status : Nat) (detail : String)
deriving DecidableEq, Repr

/-- `json.dumps([session_id, turn_index, action, player_address])` in
`game_action`. -/
def submit_action_params (session_id turn_index : Nat)
    (action player_address : String) : String :=
  "[" ++ toString session_id ++ ", " ++ toString turn_index ++ ", \"" ++
    action ++ "\", \"" ++ player_address ++ "\"]"

/-- `main.game_action`: rate-limit check (`_check_rate_limit`, raising HTTP
429 at or above `max_tx_per_hour`), idempotency check
(`_check_idempotency`, echoing an existing row), `validate_turn_index`,
wallet-binding lookup (HTTP 400 when absent), then `enqueue_tx`; a UNIQUE
violation in the enqueue is not handled and surfaces as HTTP 500.  Returns
the response and the queue table after the call. -/
def game_action (sessions : Nat → Option SessionInfo)
    (bindings : String → Option String) (db : List TxRow)
    (moltbook_id : String) (session_id turn_index : Nat)
    (action action_id : String) (now : Nat) : ActionResponse × List TxRow :=
  if count_recent_txs db moltbook_id now 3600 ≥ max_tx_per_hour then
    (ActionResponse.httpError 429 "Rate limit exceeded (10 tx/hour)", db)
  else
    match get_tx_by_action db moltbook_id action_id with
    | some r => (ActionResponse.txStatus r.id r.action_id r.status r.tx_hash r.error, db)
    | none =>
        match validate_turn_index sessions session_id turn_index with
        | ValidationOutcome.err c s cs e g =>
            (ActionResponse.rejected c s cs e g, db)
        | ValidationOutcome.ok _info =>
            match bindings moltbook_id with
            | none =>
                (ActionResponse.httpError 400 "Link wallet first via /auth/link-simple", db)
            | some player_address =>
                match enqueue_tx db action_id moltbook_id "submitAction"
                    (submit_action_params session_id turn_index action player_address)
                    now with
                | Except.error e => (ActionResponse.httpError 500 e, db)
                | Except.ok (db2, i) =>
                    (ActionResponse.txStatus i action_id Status.pending none none, db2)

/-! ### Two concurrent duplicate submissions (`_check_idempotency` + `enqueue_tx`)

Every game endpoint runs `_check_idempotency` (a SELECT) and then, when no
row was found, `enqueue_tx` (an INSERT checked by the
UNIQUE(moltbook_id, action_id) constraint).  Each database statement is
atomic; between the SELECT and the INSERT of one request, the other
request's statements may run.  The machine below interleaves two such
requests for the same (moltbook_id, action_id) at statement granularity. -/

/-- Result one request handler produces for its caller: the idempotent echo
of an existing row, the fresh pending entry, or the unhandled
IntegrityError from the racing INSERT (surfaced as HTTP 500). -/
inductive HandlerResult
  | echo (id : Nat) (status : Status) (tx_hash : Option String)
  | created (id : Nat)
  | dbError (msg : String)
deriving DecidableEq, Repr

/-- Progress of one request handler: before its SELECT, after its SELECT
(remembering what it saw), or finished. -/
inductive ThreadState
  | start
  | checked (found : Option TxRow)
  | done (res : HandlerResult)
deriving DecidableEq, Repr

/-- One atomic statement of a handler for (moltbook_id, action_id):
the `_check_idempotency` SELECT, then either the echo (row found) or the
`enqueue_tx` INSERT whose UNIQUE-violation failure becomes `dbError`.
A finished handler does nothing. -/
def thread_step (moltbook_id action_id method params : String) (now : Nat)
    (db : List TxRow) : ThreadState → List TxRow × ThreadState
  | ThreadState.start =>
      (db, ThreadState.checked (get_tx_by_action db moltbook_id action_id))
  | ThreadState.checked (some r) =>
      (db, ThreadState.done (HandlerResult.echo r.id r.status r.tx_hash))
  | ThreadState.checked none =>
      match enqueue_tx db action_id moltbook_id method params now with
      | Except.error e => (db, ThreadState.done (HandlerResult.dbError e))
      | Except.ok (db2, i) => (db2, ThreadState.done (HandlerResult.created i))
  | ThreadState.done r => (db, ThreadState.done r)

/-- Shared state of the two racing requests. -/
structure PairState where
  db : List TxRow
  t1 : ThreadState
  t2 : ThreadState
deriving DecidableEq, Repr

/-- Run one scheduled step: `false` steps request 1, `true` steps request 2. -/
def sched_step (moltbook_id action_id method params : String) (now : Nat)
    (s : PairState) (who : Bool) : PairState :=
  if who then
    let p := thread_step moltbook_id action_id method params now s.db s.t2
    { s with db := p.1, t2 := p.2 }
  else
    let p := thread_step moltbook_id action_id method params now s.db s.t1
    { s with db := p.1, t1 := p.2 }

/-- Run a whole schedule (arbitrary interleaving of the two requests'
statements). -/
def run_sched (moltbook_id action_id method params : String) (now : Nat)
    (s : PairState) : List Bool → PairState
  | [] => s
  | who :: rest =>
      run_sched moltbook_id action_id method params now
        (sched_step moltbook_id action_id method params now s who) rest

/-! ### Derived notions used by the statements below -/

/-- Arguments of one `award_xp` call. -/
structure AwardCall where
  idempotency_key : String
  moltbook_id : String
  session_id : Nat
  epoch_id : Nat
  event_type : String
  xp_amount : Nat
  gold_amount : Nat
  source : String
  metadata : Option String
  now : Nat
deriving DecidableEq, Repr

/-- Apply a whole history of `award_xp` calls in order. -/
def run_awards (db : RewardDb) : List AwardCall → RewardDb
  | [] => db
  | c :: cs =>
      run_awards (award_xp db c.idempotency_key c.moltbook_id c.session_id
        c.epoch_id c.event_type c.xp_amount c.gold_amount c.source c.metadata
        c.now).1 cs

/-- The subject's stats row is exactly the fold of its RewardEvent rows:
xp and gold are the sums, the three counters count their event types, and
the level is the threshold function of the total.  This is the invariant
the incremental `award_xp` path maintains (given a pre-existing row). -/
def stats_matches_log (db : RewardDb) (m : String) : Prop :=
  ∃ r, get_agent_full_stats db m = some r ∧
    r.total_xp = ((events_for db.xp_events m).map (fun e => e.xp_amount)).sum ∧
    r.lifetime_gold = ((events_for db.xp_events m).map (fun e => e.gold_amount)).sum ∧
    r.lifetime_sessions =
      some ((events_for db.xp_events m).filter
        (fun e => e.event_type == "session_complete")).length ∧
    r.lifetime_wins =
      some ((events_for db.xp_events m).filter (fun e => e.event_type == "win")).length ∧
    r.dm_sessions =
      some ((events_for db.xp_events m).filter (fun e => e.event_type == "dm_hosted")).length ∧
    r.current_level = rebuild_level r.total_xp

/-- The combined effect of `award_xp`'s event-type-specific UPDATEs on the
subject's own row, as one function (used to state lookup lemmas). -/
def event_type_delta (t : String) (now : Nat) (s : AgentStats) : AgentStats :=
  if t == "dm_hosted" then { s with dm_sessions := s.dm_sessions.map (· + 1) }
  else if t == "session_complete" then
    { s with lifetime_sessions := s.lifetime_sessions.map (· + 1),
             last_session_at := some now }
  else if t == "win" then { s with lifetime_wins := s.lifetime_wins.map (· + 1) }
  else s

/-- The effect of `award_xp`'s ON CONFLICT update arm on the subject's own
row, as one function. -/
def upsert_delta (xp gold : Nat) (s : AgentStats) : AgentStats :=
  { s with total_xp := s.total_xp + xp, lifetime_gold := s.lifetime_gold + gold,
           current_level := award_level s.total_xp xp }

/-- A freshly provisioned stats row with zeroed aggregates (what
`/internal/log-action` inserts, and what the schema defaults give). -/
def zero_stats_row (m : String) (dn : Option String) (created : Nat) : AgentStats :=
  { moltbook_id := m, display_name := dn, total_xp := 0, current_level := "novice",
    lifetime_sessions := some 0, lifetime_wins := some 0, lifetime_gold := 0,
    dm_sessions := some 0, last_session_at := none, created_at := created }

/-- One observed update of a queue entry is forward-only: the status rank
strictly increases, a tx_hash that was set is neither cleared nor changed,
and a tx_hash is only ever present from the submitted stage onwards. -/
def tx_step_ok (a b : Status × Option String) : Prop :=
  a.1.rank < b.1.rank ∧ (a.2 = none ∨ b.2 = a.2) ∧ (b.2 ≠ none → 2 ≤ b.1.rank)

/-- `tx_step_ok` lifted to the (always-present) looked-up rows. -/
def opt_step : Option (Status × Option String) → Option (Status × Option String) → Prop
  | some a, some b => tx_step_ok a b
  | _, _ => False

/-- The (status, tx_hash) view of entry `tx.id` in the initial table and in
every intermediate table produced by one `process_single_tx` run. -/
def entry_states (env : ChainEnv) (db : List TxRow) (tx : TxRow) (now : Nat) :
    List (Option (Status × Option String)) :=
  (db :: process_dbs env db tx now).map
    (fun d => (get_tx d tx.id).map (fun r => (r.status, r.tx_hash)))

/-- The entry id a handler outcome lets its caller observe, if any. -/
def result_id : HandlerResult → Option Nat
  | HandlerResult.echo i _ _ => some i
  | HandlerResult.created i => some i
  | HandlerResult.dbError _ => none

/-- The outcome of a finished handler. -/
def thread_result : ThreadState → Option HandlerResult
  | ThreadState.done r => some r
  | _ => none

/-- Per-handler invariant of the duplicate-submission race: whatever a
handler has observed or produced is backed by a row with the contested key
in the (grow-only) table. -/
def thread_inv (db : List TxRow) (m a : String) : ThreadState → Prop
  | ThreadState.start => True
  | ThreadState.checked none => True
  | ThreadState.checked (some r) => r ∈ db ∧ tx_key m a r = true
  | ThreadState.done (HandlerResult.echo i _ _) =>
      ∃ r, r ∈ db ∧ tx_key m a r = true ∧ r.id = i
  | ThreadState.done (HandlerResult.created i) =>
      ∃ r, r ∈ db ∧ tx_key m a r = true ∧ r.id = i
  | ThreadState.done (HandlerResult.dbError _) =>
      ∃ r, r ∈ db ∧ tx_key m a r = true

/-- System invariant of the race: at most one row ever carries the
contested key, and both handlers' views are backed by the table. -/
def pair_inv (m a : String) (s : PairState) : Prop :=
  (s.db.filter (tx_key m a)).length ≤ 1 ∧
  thread_inv s.db m a s.t1 ∧ thread_inv s.db m a s.t2

/-- The broadcast outcome of the worker code as written: the keyword-argument
call `client.send_tx(method, *params, value=value)`, with the
(never-reached) success case mapped to the broadcast hash. -/
def actual_send_result (st : Option Nat) (ledger gas_price : Nat)
    (method : String) (params : List String) (hash_of : BuiltTx → String)
    (broadcast_ok : Bool) : Except String String :=
  ((worker_send st ledger gas_price method params broadcast_ok).1).map
    (fun tx => hash_of tx)

/-- A pending enterDungeon queue entry (the rate-limit/idempotency checks
having admitted it. -/
def enter_entry : TxRow :=
  { id := 1, action_id := "act1", moltbook_id := "alice", method := "enterDungeon",
    params := "[1]", status := Status.pending, tx_hash := none, error := none,
    created_at := 4000, updated_at := 4000 }

/-- Run a sequence of `/game/action` requests (action id and arrival time
each) for one caller, threading the queue table. -/
def run_actions (sessions : Nat → Option SessionInfo)
    (bindings : String → Option String) (m : String) (sid ti : Nat)
    (act : String) : List (String × Nat) → List TxRow →
      List ActionResponse × List TxRow
  | [], db => ([], db)
  | (aid, now) :: rest, db =>
      let p := game_action sessions bindings db m sid ti act aid now
      let q := run_actions sessions bindings m sid ti act rest p.2
      (p.1 :: q.1, q.2)

/-- A ledger with one Active session (id 1, current turn 0) for the
rate-limit scenario. -/
def one_active_session : Nat → Option SessionInfo := fun sid =>
  if sid == 1 then
    some { session_id := 1, dungeon_id := 0, dm := none, state := 2,
           state_name := "Active", current_turn := 0, current_actor := none,
           turn_deadline := 0, gold_pool := 0, max_gold := 0,
           dm_accept_deadline := 0, last_activity := 0, dm_epoch := 0,
           epoch_id := 1 }
  else none

/-- A wallet binding for the scenario caller. -/
def alice_binding : String → Option String := fun m =>
  if m == "alice" then some "0xwallet" else none

/-- A ledger with one Active session whose current turn is 3 (the spec's
TurnMismatch example). -/
def turn3_session : Nat → Option SessionInfo := fun sid =>
  if sid == 1 then
    some { session_id := 1, dungeon_id := 0, dm := none, state := 2,
           state_name := "Active", current_turn := 3, current_actor := none,
           turn_deadline := 0, gold_pool := 0, max_gold := 0,
           dm_accept_deadline := 0, last_activity := 0, dm_epoch := 0,
           epoch_id := 1 }
  else none

/-- Eleven distinct-actionId requests inside one hour. -/
def eleven_requests : List (String × Nat) :=
  (List.range 11).map (fun i => ("a" ++ toString i, 4000 + i))

/-! ## Helper lemmas -/

/-- Looking an id up after `update_tx_status` of that id yields the stored
row with the updated fields. -/
theorem get_tx_update_tx_status (db : List TxRow) (tx_id : Nat) (st : Status)
    (h e : Option String) (now : Nat) :
    get_tx (update_tx_status db tx_id st h e now) tx_id =
      (get_tx db tx_id).map (fun r =>
        { r with status := st, tx_hash := h, error := e, updated_at := now }) := by
  induction db with
  | nil => rfl
  | cons a l ih =>
      simp only [get_tx, update_tx_status, List.map_cons, List.find?] at ih ⊢
      cases hb : (a.id == tx_id)
      · simpa [hb] using ih
      · simp [hb]

/-- Looking up key `m` after an update that rewrites exactly the rows with
key `m` (by a key-preserving function) yields the rewritten row. -/
theorem find?_update_by_key (l : List AgentStats) (m : String)
    (f : AgentStats → AgentStats) (hf : ∀ r, (f r).moltbook_id = r.moltbook_id) :
    (l.map (fun r => if r.moltbook_id == m then f r else r)).find?
        (fun r => r.moltbook_id == m)
      = (l.find? (fun r => r.moltbook_id == m)).map f := by
  rw [List.find?_map]
  have hp : ((fun r : AgentStats => r.moltbook_id == m) ∘
      (fun r => if r.moltbook_id == m then f r else r)) =
      (fun r : AgentStats => r.moltbook_id == m) := by
    funext r
    by_cases h : (r.moltbook_id == m) = true
    · simp [Function.comp, h, hf]
    · simp [Function.comp, h]
  rw [hp]
  cases hfind : l.find? (fun r => r.moltbook_id == m) with
  | none => rfl
  | some r0 =>
      have hr0 := List.find?_some hfind
      simp only [] at hr0
      show some (if r0.moltbook_id == m then f r0 else r0) = some (f r0)
      rw [if_pos hr0]

/-- Looking up key `m` is untouched by an update keyed on a different
`m'`. -/
theorem find?_update_other_key (l : List AgentStats) (m m' : String)
    (hne : m' ≠ m) (f : AgentStats → AgentStats)
    (hf : ∀ r, (f r).moltbook_id = r.moltbook_id) :
    (l.map (fun r => if r.moltbook_id == m' then f r else r)).find?
        (fun r => r.moltbook_id == m)
      = l.find? (fun r => r.moltbook_id == m) := by
  rw [List.find?_map]
  have hp : ((fun r : AgentStats => r.moltbook_id == m) ∘
      (fun r => if r.moltbook_id == m' then f r else r)) =
      (fun r : AgentStats => r.moltbook_id == m) := by
    funext r
    by_cases h : (r.moltbook_id == m') = true
    · simp [Function.comp, h, hf]
    · simp [Function.comp, h]
  rw [hp]
  cases hfind : l.find? (fun r => r.moltbook_id == m) with
  | none => rfl
  | some r0 =>
      have hr0 := List.find?_some hfind
      simp only [] at hr0
      have hr0' : r0.moltbook_id = m := by simpa using hr0
      have h2 : ¬ ((r0.moltbook_id == m') = true) := by
        rw [hr0']
        simpa using hne.symm
      show some (if r0.moltbook_id == m' then f r0 else r0) = some r0
      rw [if_neg h2]

/-- A successful lookup is unaffected by rows appended on the right. -/
theorem find?_append_left {α : Type} (p : α → Bool) (l1 l2 : List α) (r : α)
    (h : l1.find? p = some r) : (l1 ++ l2).find? p = some r := by
  rw [List.find?_append, h]
  rfl

/-- The lookup of the subject's row after the event-type-specific UPDATEs:
the stored row transformed by `event_type_delta`. -/
theorem find?_apply_event_type_update_self (l : List AgentStats)
    (m t : String) (now : Nat) :
    (apply_event_type_update l m t now).find? (fun s => s.moltbook_id == m)
      = (l.find? (fun s => s.moltbook_id == m)).map (event_type_delta t now) := by
  unfold apply_event_type_update
  split_ifs with h1 h2 h3
  · rw [find?_update_by_key l m
      (fun r => { r with dm_sessions := r.dm_sessions.map (· + 1) }) (fun r => rfl)]
    cases l.find? (fun s => s.moltbook_id == m) <;> simp [event_type_delta, h1]
  · rw [find?_update_by_key l m
      (fun r => { r with lifetime_sessions := r.lifetime_sessions.map (· + 1),
                         last_session_at := some now }) (fun r => rfl)]
    cases l.find? (fun s => s.moltbook_id == m) <;> simp [event_type_delta, h1, h2]
  · rw [find?_update_by_key l m
      (fun r => { r with lifetime_wins := r.lifetime_wins.map (· + 1) }) (fun r => rfl)]
    cases l.find? (fun s => s.moltbook_id == m) <;> simp [event_type_delta, h1, h2, h3]
  · cases hfind : l.find? (fun s => s.moltbook_id == m) <;>
      simp [hfind, event_type_delta, h1, h2, h3]

/-- A different subject's row is untouched by the event-type-specific
UPDATEs. -/
theorem find?_apply_event_type_update_other (l : List AgentStats)
    (m m' t : String) (now : Nat) (hne : m' ≠ m) :
    (apply_event_type_update l m' t now).find? (fun s => s.moltbook_id == m)
      = l.find? (fun s => s.moltbook_id == m) := by
  unfold apply_event_type_update
  split_ifs
  · exact find?_update_other_key l m m' hne
      (fun r => { r with dm_sessions := r.dm_sessions.map (· + 1) }) (fun r => rfl)
  · exact find?_update_other_key l m m' hne
      (fun r => { r with lifetime_sessions := r.lifetime_sessions.map (· + 1),
                         last_session_at := some now }) (fun r => rfl)
  · exact find?_update_other_key l m m' hne
      (fun r => { r with lifetime_wins := r.lifetime_wins.map (· + 1) }) (fun r => rfl)
  · rfl

/-- `event_type_delta` never changes the xp total. -/
theorem etd_total_xp (t : String) (now : Nat) (s : AgentStats) :
    (event_type_delta t now s).total_xp = s.total_xp := by
  unfold event_type_delta
  split_ifs <;> rfl

/-- `event_type_delta` never changes the gold total. -/
theorem etd_lifetime_gold (t : String) (now : Nat) (s : AgentStats) :
    (event_type_delta t now s).lifetime_gold = s.lifetime_gold := by
  unfold event_type_delta
  split_ifs <;> rfl

/-- `event_type_delta` never changes the level. -/
theorem etd_current_level (t : String) (now : Nat) (s : AgentStats) :
    (event_type_delta t now s).current_level = s.current_level := by
  unfold event_type_delta
  split_ifs <;> rfl

/-- `event_type_delta` bumps the session counter exactly on
session_complete. -/
theorem etd_lifetime_sessions (t : String) (now : Nat) (s : AgentStats) :
    (event_type_delta t now s).lifetime_sessions =
      if t == "session_complete" then s.lifetime_sessions.map (· + 1)
      else s.lifetime_sessions := by
  unfold event_type_delta
  split_ifs <;> simp_all

/-- `event_type_delta` bumps the win counter exactly on win. -/
theorem etd_lifetime_wins (t : String) (now : Nat) (s : AgentStats) :
    (event_type_delta t now s).lifetime_wins =
      if t == "win" then s.lifetime_wins.map (· + 1)
      else s.lifetime_wins := by
  unfold event_type_delta
  split_ifs <;> simp_all

/-- `event_type_delta` bumps the DM counter exactly on dm_hosted. -/
theorem etd_dm_sessions (t : String) (now : Nat) (s : AgentStats) :
    (event_type_delta t now s).dm_sessions =
      if t == "dm_hosted" then s.dm_sessions.map (· + 1)
      else s.dm_sessions := by
  unfold event_type_delta
  split_ifs <;> simp_all

/-- The lookup of the subject's own row after the stats upsert (which hits
the conflict arm because the row exists). -/
theorem find?_upsert_self (stats : List AgentStats) (m : String)
    (xp gold now : Nat) (hany : stats.any (fun s => s.moltbook_id == m) = true) :
    (upsert_agent_stats stats m xp gold now).find? (fun s => s.moltbook_id == m)
      = (stats.find? (fun s => s.moltbook_id == m)).map (upsert_delta xp gold) := by
  unfold upsert_agent_stats
  rw [if_pos hany]
  exact find?_update_by_key stats m (upsert_delta xp gold) (fun r => rfl)

/-- A different subject's row is untouched by the stats upsert. -/
theorem find?_upsert_other (stats : List AgentStats) (m m' : String)
    (xp gold now : Nat) (hne : m' ≠ m) :
    (upsert_agent_stats stats m' xp gold now).find? (fun s => s.moltbook_id == m)
      = stats.find? (fun s => s.moltbook_id == m) := by
  unfold upsert_agent_stats
  split_ifs with hany
  · exact find?_update_other_key stats m m' hne (upsert_delta xp gold) (fun r => rfl)
  · cases hfind : stats.find? (fun s => s.moltbook_id == m) with
    | none =>
        rw [List.find?_append, hfind]
        simpa using hne
    | some r => exact find?_append_left _ _ _ _ hfind

/-! ## C2 — nonce allocation -/

/-- Allocations from a warm cache `some n` return `n+1, n+2, ...`. -/
theorem nonce_run_some (ledger n k : Nat) :
    nonce_run ledger k (some n) = (List.range k).map (fun i => n + 1 + i) := by
  induction k generalizing n with
  | zero => rfl
  | succ k ih =>
      rw [List.range_succ_eq_map]
      simp only [nonce_run, get_nonce, List.map_cons, List.map_map]
      congr 1
      rw [ih (n + 1)]
      exact List.map_congr_left (fun i _ => by simp [Function.comp]; omega)

/-- Unrolling one `send_tx` call of a sequence from a warm cache. -/
theorem send_tx_calls_cons_some (ledger gp : Nat) (meth : String)
    (args : List String) (b : Bool) (rest : List Bool) (n : Nat) :
    send_tx_calls ledger gp meth args (b :: rest) (some n) =
      (if b then
        Except.ok { sender := "runner", nonce := n + 1, chainId := chain_id,
                    gas := 500000, gasPrice := gp * 3 / 2 }
      else Except.error "BroadcastError") ::
        send_tx_calls ledger gp meth args rest (some (n + 1)) := by
  cases b <;> rfl

/-- Unrolling the first `send_tx` call of a sequence from an empty cache:
the lazy load reads the ledger's pending nonce. -/
theorem send_tx_calls_cons_none (ledger gp : Nat) (meth : String)
    (args : List String) (b : Bool) (rest : List Bool) :
    send_tx_calls ledger gp meth args (b :: rest) none =
      (if b then
        Except.ok { sender := "runner", nonce := ledger, chainId := chain_id,
                    gas := 500000, gasPrice := gp * 3 / 2 }
      else Except.error "BroadcastError") ::
        send_tx_calls ledger gp meth args rest (some ledger) := by
  cases b <;> rfl

/-- `broadcast_nonces` keeps a successful call's nonce. -/
theorem broadcast_nonces_cons_ok (tx : BuiltTx)
    (rs : List (Except String BuiltTx)) :
    broadcast_nonces (Except.ok tx :: rs) = tx.nonce :: broadcast_nonces rs := rfl

/-- `broadcast_nonces` drops a failed call. -/
theorem broadcast_nonces_cons_err (e : String)
    (rs : List (Except String BuiltTx)) :
    broadcast_nonces (Except.error e :: rs) = broadcast_nonces rs := rfl

/-- From a warm cache `some n`, every successful-broadcast nonce exceeds
`n`, and the successful-broadcast nonces are strictly increasing. -/
theorem broadcast_nonces_sorted_some (ledger gp : Nat) (meth : String)
    (args : List String) (outs : List Bool) (n : Nat) :
    (∀ x ∈ broadcast_nonces (send_tx_calls ledger gp meth args outs (some n)),
      n < x) ∧
    List.Pairwise (· < ·)
      (broadcast_nonces (send_tx_calls ledger gp meth args outs (some n))) := by
  induction outs generalizing n with
  | nil =>
      constructor
      · intro x hx
        simp [send_tx_calls, broadcast_nonces] at hx
      · exact List.Pairwise.nil
  | cons b rest ih =>
      obtain ⟨ihlb, ihpw⟩ := ih (n + 1)
      rw [send_tx_calls_cons_some]
      cases b
      · rw [if_neg (by simp), broadcast_nonces_cons_err]
        refine ⟨fun x hx => Nat.lt_trans (Nat.lt_succ_self n) (ihlb x hx), ihpw⟩
      · rw [if_pos rfl, broadcast_nonces_cons_ok]
        constructor
        · intro x hx
          cases hx with
          | head => exact Nat.lt_succ_self n
          | tail _ hx => exact Nat.lt_trans (Nat.lt_succ_self n) (ihlb x hx)
        · exact List.Pairwise.cons (fun y hy => ihlb y hy) ihpw

/-- C2 (amended): every allocation goes through the NonceManager — `k`
allocations from an empty cache yield exactly `ledger, ..., ledger+k-1`,
reading the ledger only on the lazy first load — and every `send_tx` call
attempts precisely the allocator's output as its nonce, so across any
back-to-back sequence of `send_tx` calls the nonces of the successful
broadcasts are strictly increasing with no repeats; but a call whose
post-allocation steps raise still advances the cache (`reset` is never
called), burning its nonce, so the successful-broadcast sequence can have
gaps. -/
theorem successful_broadcast_nonces (ledger gp k : Nat) (meth : String)
    (args : List String) (outs : List Bool) :
    nonce_run ledger k none = (List.range k).map (fun i => ledger + i) ∧
    List.Pairwise (· < ·)
      (broadcast_nonces (send_tx_calls ledger gp meth args outs none)) ∧
    (∀ st b, (call_send_tx st ledger gp meth args [] b).2 =
      some (get_nonce ledger st).1) ∧
    (∀ st, (call_send_tx st ledger gp meth args [] true).1 =
      Except.ok { sender := "runner", nonce := (get_nonce ledger st).1,
                  chainId := chain_id, gas := 500000,
                  gasPrice := gp * 3 / 2 }) := by
  refine ⟨?_, ?_, ?_, ?_⟩
  · cases k with
    | zero => rfl
    | succ k =>
        rw [List.range_succ_eq_map]
        simp only [nonce_run, get_nonce, List.map_cons, List.map_map]
        congr 1
        rw [nonce_run_some]
        exact List.map_congr_left (fun i _ => by simp [Function.comp]; omega)
  · cases outs with
    | nil => exact List.Pairwise.nil
    | cons b rest =>
        rw [send_tx_calls_cons_none]
        have h := broadcast_nonces_sorted_some ledger gp meth args rest ledger
        cases b
        · rw [if_neg (by simp), broadcast_nonces_cons_err]
          exact h.2
        · rw [if_pos rfl, broadcast_nonces_cons_ok]
          exact List.Pairwise.cons (fun y hy => h.1 y hy) h.2
  · intro st b
    cases st <;> cases b <;> rfl
  · intro st
    cases st <;> rfl

/-- C2 counterexample: three back-to-back `send_tx` calls of which the
middle one raises after allocating — the successful broadcasts carry
nonces 7 then 9: strictly increasing, but with a gap, because the failed
call consumed nonce 8 (the cache advanced to 8 and `reset` is never
called) without broadcasting it. -/
theorem failed_broadcast_burns_nonce :
    broadcast_nonces
        (send_tx_calls 7 1000 "registerAgent" ["0xw"] [true, false, true] none) =
      [7, 9] ∧
    (call_send_tx (some 7) 7 1000 "registerAgent" ["0xw"] [] false).1 =
      Except.error "BroadcastError" ∧
    (call_send_tx (some 7) 7 1000 "registerAgent" ["0xw"] [] false).2 = some 8 ∧
    ¬ (9 = 7 + 1) := by
  refine ⟨by decide, rfl, by decide, by decide⟩

/-! ## C6 — reward idempotence -/

/-- C6: for any idempotency key not yet present, the first `award_xp` call
inserts exactly one RewardEvent row and returns True; any later call with
the same key — same or different amounts, even a different subject —
inserts no row, leaves the whole reward database (hence SubjectStats)
unchanged, and returns False instead of raising. -/
theorem award_twice_changes_stats_once (db : RewardDb) (key m1 m2 src1 src2 : String)
    (s1 e1 s2 e2 : Nat) (t1 t2 : String) (x1 g1 x2 g2 : Nat)
    (md1 md2 : Option String) (n1 n2 : Nat)
    (hfresh : has_event_key db.xp_events key = false) :
    (award_xp db key m1 s1 e1 t1 x1 g1 src1 md1 n1).2 = true ∧
    (award_xp db key m1 s1 e1 t1 x1 g1 src1 md1 n1).1.xp_events =
      db.xp_events ++
        [{ idempotency_key := key, moltbook_id := m1, session_id := s1,
           epoch_id := e1, event_type := t1, xp_amount := x1, gold_amount := g1,
           source := src1, metadata := md1, created_at := n1 }] ∧
    (award_xp (award_xp db key m1 s1 e1 t1 x1 g1 src1 md1 n1).1
        key m2 s2 e2 t2 x2 g2 src2 md2 n2).2 = false ∧
    (award_xp (award_xp db key m1 s1 e1 t1 x1 g1 src1 md1 n1).1
        key m2 s2 e2 t2 x2 g2 src2 md2 n2).1 =
      (award_xp db key m1 s1 e1 t1 x1 g1 src1 md1 n1).1 := by
  have hfresh' : ¬ (has_event_key db.xp_events key = true) := by simp [hfresh]
  have h1 : award_xp db key m1 s1 e1 t1 x1 g1 src1 md1 n1 =
      ({ xp_events := db.xp_events ++
          [{ idempotency_key := key, moltbook_id := m1, session_id := s1,
             epoch_id := e1, event_type := t1, xp_amount := x1, gold_amount := g1,
             source := src1, metadata := md1, created_at := n1 }],
         agent_stats := apply_event_type_update
           (upsert_agent_stats db.agent_stats m1 x1 g1 n1) m1 t1 n1 }, true) := by
    rw [award_xp, if_neg hfresh']
  have hdup : has_event_key
      (award_xp db key m1 s1 e1 t1 x1 g1 src1 md1 n1).1.xp_events key = true := by
    rw [h1]
    simp [has_event_key]
  have hdup' : has_event_key
      (award_xp db key m1 s1 e1 t1 x1 g1 src1 md1 n1).1.xp_events key := hdup
  refine ⟨by rw [h1], by rw [h1], ?_, ?_⟩
  · rw [award_xp, if_pos hdup']
  · rw [award_xp, if_pos hdup']

/-! ## C10 — level thresholds -/

/-- C10 counterexample: a first-ever award of 600 xp leaves the freshly
inserted SubjectStats row at the column default 'novice', although the
thresholds applied to the new cumulative total 600 give 'adventurer' — the
insert arm of the upsert does not apply the thresholds. -/
theorem first_award_level_ignores_thresholds :
    (get_agent_full_stats
        (award_xp (RewardDb.mk [] []) "k1" "alice" 0 0 "action" 600 0 "t" none 0).1
        "alice").map (fun r => r.current_level) = some "novice" ∧
    rebuild_level 600 = "adventurer" ∧
    ("novice" : String) ≠ "adventurer" := by
  decide

/-- C10 (amended): the level thresholds are fixed at 500, 2000 and 10000
total xp — `rebuild` computes legend iff totalXp ≥ 10000, veteran iff
2000 ≤ totalXp < 10000, adventurer iff 500 ≤ totalXp < 2000 and novice
otherwise — and the award path's ON CONFLICT update arm applies exactly the
same thresholds to the new cumulative total; only a first-ever award takes
the insert arm, which leaves the row at the schema default 'novice'
regardless of the xp amount. -/
theorem level_thresholds (x old xp gold now : Nat) (m : String) :
    (rebuild_level x = "legend" ↔ 10000 ≤ x) ∧
    (rebuild_level x = "veteran" ↔ 2000 ≤ x ∧ x < 10000) ∧
    (rebuild_level x = "adventurer" ↔ 500 ≤ x ∧ x < 2000) ∧
    (rebuild_level x = "novice" ↔ x < 500) ∧
    award_level old xp = rebuild_level (old + xp) ∧
    upsert_agent_stats [] m xp gold now =
      [{ moltbook_id := m, display_name := none, total_xp := xp,
         current_level := "novice", lifetime_sessions := some 0,
         lifetime_wins := some 0, lifetime_gold := gold,
         dm_sessions := some 0, last_session_at := none, created_at := now }] := by
  refine ⟨?_, ?_, ?_, ?_, rfl, by simp [upsert_agent_stats]⟩ <;>
    · unfold rebuild_level
      split_ifs <;> simp_all <;> omega

/-! ## C3 — rebuild vs incremental -/

/-- C3 counterexample: after a single award of 600 xp to a fresh subject,
the incremental SubjectStats row carries currentLevel 'novice' while
`rebuild_agent_stats` over the very same RewardEvent log produces
'adventurer' — the two paths differ. -/
theorem rebuild_differs_from_incremental :
    (get_agent_full_stats
        (award_xp (RewardDb.mk [] []) "k1" "alice" 0 0 "action" 600 0 "t" none 0).1
        "alice").map (fun r => r.current_level) = some "novice" ∧
    (get_agent_full_stats
        (rebuild_agent_stats
          (award_xp (RewardDb.mk [] []) "k1" "alice" 0 0 "action" 600 0 "t" none 0).1
          "alice" 1)
        "alice").map (fun r => r.current_level) = some "adventurer" := by
  decide

/-- One `award_xp` call preserves the stats-equals-fold invariant for every
subject (the subject's row exists, so the upsert always hits the conflict
arm, whose level CASE matches the rebuild thresholds). -/
theorem stats_matches_log_award (db : RewardDb) (m : String) (c : AwardCall)
    (h : stats_matches_log db m) :
    stats_matches_log (award_xp db c.idempotency_key c.moltbook_id c.session_id
      c.epoch_id c.event_type c.xp_amount c.gold_amount c.source c.metadata
      c.now).1 m := by
  obtain ⟨r, hr, hxp, hgold, hsess, hwins, hdm, hlev⟩ := h
  by_cases hk : has_event_key db.xp_events c.idempotency_key = true
  · simp only [award_xp, if_pos hk]
    exact ⟨r, hr, hxp, hgold, hsess, hwins, hdm, hlev⟩
  · simp only [award_xp, if_neg hk]
    unfold get_agent_full_stats at hr
    by_cases hm : c.moltbook_id = m
    · subst hm
      have hpr := List.find?_some hr
      have hany : db.agent_stats.any (fun s => s.moltbook_id == c.moltbook_id) = true :=
        List.any_eq_true.mpr ⟨r, List.mem_of_find?_eq_some hr, hpr⟩
      refine ⟨event_type_delta c.event_type c.now
        (upsert_delta c.xp_amount c.gold_amount r), ?_, ?_, ?_, ?_, ?_, ?_, ?_⟩
      · unfold get_agent_full_stats
        rw [find?_apply_event_type_update_self,
          find?_upsert_self _ _ _ _ _ hany, hr]
        rfl
      · rw [etd_total_xp]
        simpa [upsert_delta, events_for, List.filter_append] using hxp
      · rw [etd_lifetime_gold]
        simpa [upsert_delta, events_for, List.filter_append] using hgold
      · rw [etd_lifetime_sessions]
        have hup : (upsert_delta c.xp_amount c.gold_amount r).lifetime_sessions
            = r.lifetime_sessions := rfl
        rw [hup, hsess]
        cases ht : (c.event_type == "session_complete") <;>
          simp [events_for, List.filter_append, ht]
      · rw [etd_lifetime_wins]
        have hup : (upsert_delta c.xp_amount c.gold_amount r).lifetime_wins
            = r.lifetime_wins := rfl
        rw [hup, hwins]
        cases ht : (c.event_type == "win") <;>
          simp [events_for, List.filter_append, ht]
      · rw [etd_dm_sessions]
        have hup : (upsert_delta c.xp_amount c.gold_amount r).dm_sessions
            = r.dm_sessions := rfl
        rw [hup, hdm]
        cases ht : (c.event_type == "dm_hosted") <;>
          simp [events_for, List.filter_append, ht]
      · rw [etd_current_level, etd_total_xp]
        show award_level r.total_xp c.xp_amount =
          rebuild_level (r.total_xp + c.xp_amount)
        rfl
    · refine ⟨r, ?_, ?_, ?_, ?_, ?_, ?_, hlev⟩
      · unfold get_agent_full_stats
        rw [find?_apply_event_type_update_other _ _ _ _ _ hm,
          find?_upsert_other _ _ _ _ _ _ hm, hr]
      · simpa [events_for, List.filter_append, hm] using hxp
      · simpa [events_for, List.filter_append, hm] using hgold
      · simpa [events_for, List.filter_append, hm] using hsess
      · simpa [events_for, List.filter_append, hm] using hwins
      · simpa [events_for, List.filter_append, hm] using hdm

/-- The invariant holds after any whole history of `award_xp` calls. -/
theorem stats_matches_log_run (calls : List AwardCall) (db : RewardDb)
    (m : String) (h : stats_matches_log db m) :
    stats_matches_log (run_awards db calls) m := by
  induction calls generalizing db with
  | nil => exact h
  | cons c cs ih => exact ih _ (stats_matches_log_award db m c h)

/-- When the invariant holds and the subject has at least one event,
`rebuild_agent_stats` reproduces the incremental row on all six projected
fields. -/
theorem rebuild_matches_stats (db : RewardDb) (m : String) (now : Nat)
    (h : stats_matches_log db m)
    (hne : (events_for db.xp_events m).isEmpty = false) :
    ∃ r r2, get_agent_full_stats db m = some r ∧
      get_agent_full_stats (rebuild_agent_stats db m now) m = some r2 ∧
      r2.total_xp = r.total_xp ∧ r2.lifetime_gold = r.lifetime_gold ∧
      r2.lifetime_sessions = r.lifetime_sessions ∧
      r2.lifetime_wins = r.lifetime_wins ∧ r2.dm_sessions = r.dm_sessions ∧
      r2.current_level = r.current_level := by
  obtain ⟨r, hr, hxp, hgold, hsess, hwins, hdm, hlev⟩ := h
  unfold get_agent_full_stats at hr
  have hpr := List.find?_some hr
  have hany : db.agent_stats.any (fun s => s.moltbook_id == m) = true :=
    List.any_eq_true.mpr ⟨r, List.mem_of_find?_eq_some hr, hpr⟩
  refine ⟨r,
    { r with total_xp := (rebuild_query db.xp_events m).total_xp,
             lifetime_gold := (rebuild_query db.xp_events m).total_gold,
             lifetime_sessions := (rebuild_query db.xp_events m).sessions,
             lifetime_wins := (rebuild_query db.xp_events m).wins,
             dm_sessions := (rebuild_query db.xp_events m).dm_sessions,
             current_level := rebuild_level (rebuild_query db.xp_events m).total_xp },
    hr, ?_, ?_, ?_, ?_, ?_, ?_, ?_⟩
  · unfold get_agent_full_stats rebuild_agent_stats
    simp only []
    rw [if_pos hany]
    rw [find?_update_by_key db.agent_stats m
      (fun s => { s with
        total_xp := (rebuild_query db.xp_events m).total_xp,
        lifetime_gold := (rebuild_query db.xp_events m).total_gold,
        lifetime_sessions := (rebuild_query db.xp_events m).sessions,
        lifetime_wins := (rebuild_query db.xp_events m).wins,
        dm_sessions := (rebuild_query db.xp_events m).dm_sessions,
        current_level := rebuild_level (rebuild_query db.xp_events m).total_xp })
      (fun s => rfl), hr]
    rfl
  · rw [hxp]
    rfl
  · rw [hgold]
    rfl
  · rw [hsess]
    show (rebuild_query db.xp_events m).sessions = _
    unfold rebuild_query sum_case_count
    simp [hne]
  · rw [hwins]
    show (rebuild_query db.xp_events m).wins = _
    unfold rebuild_query sum_case_count
    simp [hne]
  · rw [hdm]
    show (rebuild_query db.xp_events m).dm_sessions = _
    unfold rebuild_query sum_case_count
    simp [hne]
  · rw [hlev, hxp]
    rfl

/-- C3 (amended): for every history of award calls (any subjects, event
types, amounts, duplicate keys included) applied to a subject whose stats
row pre-existed with zeroed aggregates, and any interleaved awards to other
subjects, `rebuild(subjectId)` reproduces the incremental SubjectStats row
exactly on (totalXp, lifetimeGold, lifetimeSessions, lifetimeWins,
dmSessions, currentLevel), provided the subject has at least one
RewardEvent; without the pre-existing row the two paths can differ on
currentLevel (see the counterexample), and with an empty event log the
rebuild writes SQL-NULL counters. -/
theorem rebuild_equals_incremental (calls : List AwardCall) (db0 : RewardDb)
    (m : String) (dn : Option String) (created now : Nat)
    (h0 : get_agent_full_stats db0 m = some (zero_stats_row m dn created))
    (hev0 : events_for db0.xp_events m = [])
    (hne : (events_for (run_awards db0 calls).xp_events m).isEmpty = false) :
    ∃ r r2, get_agent_full_stats (run_awards db0 calls) m = some r ∧
      get_agent_full_stats
        (rebuild_agent_stats (run_awards db0 calls) m now) m = some r2 ∧
      r2.total_xp = r.total_xp ∧ r2.lifetime_gold = r.lifetime_gold ∧
      r2.lifetime_sessions = r.lifetime_sessions ∧
      r2.lifetime_wins = r.lifetime_wins ∧ r2.dm_sessions = r.dm_sessions ∧
      r2.current_level = r.current_level := by
  have hinv0 : stats_matches_log db0 m := by
    refine ⟨zero_stats_row m dn created, h0, ?_, ?_, ?_, ?_, ?_, rfl⟩ <;>
      simp [hev0, zero_stats_row]
  exact rebuild_matches_stats _ _ now (stats_matches_log_run calls db0 m hinv0) hne

/-- Witness for C3 at a concrete two-event history. -/
theorem rebuild_equals_incremental_witness :
    get_agent_full_stats (RewardDb.mk [] [zero_stats_row "bob" none 0]) "bob"
        = some (zero_stats_row "bob" none 0) ∧
    events_for (RewardDb.mk [] [zero_stats_row "bob" none 0]).xp_events "bob" = [] ∧
    (events_for (run_awards (RewardDb.mk [] [zero_stats_row "bob" none 0])
        [{ idempotency_key := "k1", moltbook_id := "bob", session_id := 1,
           epoch_id := 1, event_type := "win", xp_amount := 600,
           gold_amount := 5, source := "s", metadata := none, now := 10 },
         { idempotency_key := "k2", moltbook_id := "bob", session_id := 1,
           epoch_id := 1, event_type := "session_complete", xp_amount := 100,
           gold_amount := 0, source := "s", metadata := none, now := 11 }]).xp_events
      "bob").isEmpty = false ∧
    (∃ r r2, get_agent_full_stats (run_awards
        (RewardDb.mk [] [zero_stats_row "bob" none 0])
        [{ idempotency_key := "k1", moltbook_id := "bob", session_id := 1,
           epoch_id := 1, event_type := "win", xp_amount := 600,
           gold_amount := 5, source := "s", metadata := none, now := 10 },
         { idempotency_key := "k2", moltbook_id := "bob", session_id := 1,
           epoch_id := 1, event_type := "session_complete", xp_amount := 100,
           gold_amount := 0, source := "s", metadata := none, now := 11 }]) "bob" = some r ∧
      get_agent_full_stats (rebuild_agent_stats (run_awards
        (RewardDb.mk [] [zero_stats_row "bob" none 0])
        [{ idempotency_key := "k1", moltbook_id := "bob", session_id := 1,
           epoch_id := 1, event_type := "win", xp_amount := 600,
           gold_amount := 5, source := "s", metadata := none, now := 10 },
         { idempotency_key := "k2", moltbook_id := "bob", session_id := 1,
           epoch_id := 1, event_type := "session_complete", xp_amount := 100,
           gold_amount := 0, source := "s", metadata := none, now := 11 }]) "bob" 20) "bob" = some r2 ∧
      r2.total_xp = r.total_xp ∧ r2.lifetime_gold = r.lifetime_gold ∧
      r2.lifetime_sessions = r.lifetime_sessions ∧
      r2.lifetime_wins = r.lifetime_wins ∧ r2.dm_sessions = r.dm_sessions ∧
      r2.current_level = r.current_level) := by
  refine ⟨by decide, by decide, by decide, ?_⟩
  exact rebuild_equals_incremental
    [{ idempotency_key := "k1", moltbook_id := "bob", session_id := 1,
       epoch_id := 1, event_type := "win", xp_amount := 600,
       gold_amount := 5, source := "s", metadata := none, now := 10 },
     { idempotency_key := "k2", moltbook_id := "bob", session_id := 1,
       epoch_id := 1, event_type := "session_complete", xp_amount := 100,
       gold_amount := 0, source := "s", metadata := none, now := 11 }]
    (RewardDb.mk [] [zero_stats_row "bob" none 0]) "bob" none 0 20
    (by decide) (by decide) (by decide)

/-! ## C7 — TurnMismatch admission -/

/-- C7: a turn-submission that passes the rate limit, has a fresh
(callerId, actionId), and targets an Active session whose ledger turn
differs from the declared one is rejected with TURN_MISMATCH carrying
expected = the ledger's current turn and got = the declared index, and the
queue table is returned unchanged — no QueueEntry is created. -/
theorem turn_mismatch_rejected (sessions : Nat → Option SessionInfo)
    (bindings : String → Option String) (db : List TxRow) (m : String)
    (sid ti : Nat) (act aid : String) (now : Nat) (info : SessionInfo)
    (hrate : count_recent_txs db m now 3600 < max_tx_per_hour)
    (hfresh : get_tx_by_action db m aid = none)
    (hs : sessions sid = some info) (hactive : info.state = 2)
    (hturn : ti ≠ info.current_turn) :
    game_action sessions bindings db m sid ti act aid now =
      (ActionResponse.rejected "TURN_MISMATCH" 409 none
        (some info.current_turn) (some ti), db) := by
  have h1 : ¬ (count_recent_txs db m now 3600 ≥ max_tx_per_hour) := by omega
  have h2 : ¬ (info.state ≠ 2) := by omega
  simp only [game_action, validate_turn_index, hfresh, hs]
  rw [if_neg h1, if_neg h2, if_pos hturn]

/-- Witness for C7: declared turn 5 against ledger turn 3. -/
theorem turn_mismatch_rejected_witness :
    count_recent_txs [] "alice" 4000 3600 < max_tx_per_hour ∧
    get_tx_by_action [] "alice" "a1" = none ∧
    (turn3_session 1).map (fun i => (i.state, i.current_turn)) = some (2, 3) ∧
    game_action turn3_session alice_binding [] "alice" 1 5 "go" "a1" 4000 =
      (ActionResponse.rejected "TURN_MISMATCH" 409 none (some 3) (some 5), []) := by
  refine ⟨by decide, by decide, by decide, ?_⟩
  exact turn_mismatch_rejected turn3_session alice_binding [] "alice" 1 5 "go"
    "a1" 4000 _ (by decide) (by decide) rfl (by decide) (by decide)

/-! ## C9 — rate limiting -/

/-- C9: a `/game/action` call is answered with the 429 RateLimitExceeded
error and an unchanged queue table exactly when the caller already has at
least 10 queue rows inside the trailing hour (the check runs before the
enqueue); and the concrete scenario of 11 distinct-actionId requests inside
one hour has the first 10 succeed as pending entries and the 11th
rejected. -/
theorem rate_limiting (sessions : Nat → Option SessionInfo)
    (bindings : String → Option String) (db : List TxRow) (m : String)
    (sid ti : Nat) (act aid : String) (now : Nat) :
    (((game_action sessions bindings db m sid ti act aid now).1 =
        ActionResponse.httpError 429 "Rate limit exceeded (10 tx/hour)" ∧
      (game_action sessions bindings db m sid ti act aid now).2 = db) ↔
      10 ≤ count_recent_txs db m now 3600) ∧
    (run_actions one_active_session alice_binding "alice" 1 0 "go"
        eleven_requests []).1 =
      [ActionResponse.txStatus 1 "a0" Status.pending none none,
       ActionResponse.txStatus 2 "a1" Status.pending none none,
       ActionResponse.txStatus 3 "a2" Status.pending none none,
       ActionResponse.txStatus 4 "a3" Status.pending none none,
       ActionResponse.txStatus 5 "a4" Status.pending none none,
       ActionResponse.txStatus 6 "a5" Status.pending none none,
       ActionResponse.txStatus 7 "a6" Status.pending none none,
       ActionResponse.txStatus 8 "a7" Status.pending none none,
       ActionResponse.txStatus 9 "a8" Status.pending none none,
       ActionResponse.txStatus 10 "a9" Status.pending none none,
       ActionResponse.httpError 429 "Rate limit exceeded (10 tx/hour)"] := by
  constructor
  · constructor
    · rintro ⟨hone, _htwo⟩
      by_contra hlt
      have hcond : ¬ (count_recent_txs db m now 3600 ≥ max_tx_per_hour) := by
        simp only [max_tx_per_hour]
        omega
      simp only [game_action, if_neg hcond] at hone
      split at hone
      · simp at hone
      · split at hone
        · simp at hone
        · split at hone
          · simp at hone
          · split at hone
            · simp at hone
            · simp at hone
    · intro hge
      unfold game_action
      rw [if_pos (show count_recent_txs db m now 3600 ≥ max_tx_per_hour from hge)]
      exact ⟨rfl, rfl⟩
  · decide

/-! ## C8 — receipt-poll exhaustion -/

/-- C8: when the broadcast succeeded and all 15 receipt polls come back
empty, the worker leaves the entry submitted with its tx hash intact,
issues no reward, and returns normally (the condition is only logged). -/
theorem poll_exhaustion_leaves_submitted (env : ChainEnv) (db : List TxRow)
    (rdb : RewardDb) (tx tx0 : TxRow) (now : Nat) (h : String)
    (hrow : get_tx db tx.id = some tx0)
    (hsend : env.send_result = Except.ok h)
    (hpoll : poll_result env.receipts = none) :
    (process_single_tx env db rdb tx now).2 = rdb ∧
    get_tx (process_single_tx env db rdb tx now).1 tx.id =
      some { tx0 with
        status := Status.submitted, tx_hash := some h,
        error := none, updated_at := now } := by
  unfold process_single_tx
  simp only [hsend, hpoll]
  refine ⟨trivial, ?_⟩
  rw [get_tx_update_tx_status, get_tx_update_tx_status, hrow]
  rfl

/-- Witness for C8: a concrete submitted entry whose 15 polls all miss. -/
theorem poll_exhaustion_leaves_submitted_witness :
    get_tx [enter_entry] enter_entry.id = some enter_entry ∧
    (ChainEnv.mk (Except.ok "0xh") (fun _ => none)).send_result = Except.ok "0xh" ∧
    poll_result (ChainEnv.mk (Except.ok "0xh") (fun _ => none)).receipts = none ∧
    ((process_single_tx (ChainEnv.mk (Except.ok "0xh") (fun _ => none))
        [enter_entry] (RewardDb.mk [] []) enter_entry 9).2 = RewardDb.mk [] [] ∧
      get_tx (process_single_tx (ChainEnv.mk (Except.ok "0xh") (fun _ => none))
          [enter_entry] (RewardDb.mk [] []) enter_entry 9).1 enter_entry.id =
        some { enter_entry with
          status := Status.submitted, tx_hash := some "0xh",
          error := none, updated_at := 9 }) := by
  refine ⟨by decide, rfl, by decide, ?_⟩
  exact poll_exhaustion_leaves_submitted _ _ _ _ _ _ _ (by decide) rfl (by decide)

/-! ## C1 — duplicate submissions -/

/-- The per-handler race invariant is stable under appending rows. -/
theorem thread_inv_append (db l2 : List TxRow) (m a : String)
    (t : ThreadState) (h : thread_inv db m a t) :
    thread_inv (db ++ l2) m a t := by
  cases t with
  | start => trivial
  | checked found =>
      cases found with
      | none => trivial
      | some r => exact ⟨List.mem_append_left _ h.1, h.2⟩
  | done res =>
      cases res with
      | echo i st hh =>
          obtain ⟨r, hm, hk, hi⟩ := h
          exact ⟨r, List.mem_append_left _ hm, hk, hi⟩
      | created i =>
          obtain ⟨r, hm, hk, hi⟩ := h
          exact ⟨r, List.mem_append_left _ hm, hk, hi⟩
      | dbError msg =>
          obtain ⟨r, hm, hk⟩ := h
          exact ⟨r, List.mem_append_left _ hm, hk⟩

/-- One atomic handler statement preserves the race invariant (for the
stepping handler and for the other one). -/
theorem thread_step_inv (m a meth prms : String) (now : Nat)
    (db : List TxRow) (t other : ThreadState)
    (hcount : (db.filter (tx_key m a)).length ≤ 1)
    (ht : thread_inv db m a t) (hother : thread_inv db m a other) :
    ((thread_step m a meth prms now db t).1.filter (tx_key m a)).length ≤ 1 ∧
    thread_inv (thread_step m a meth prms now db t).1 m a
      (thread_step m a meth prms now db t).2 ∧
    thread_inv (thread_step m a meth prms now db t).1 m a other := by
  cases t with
  | start =>
      refine ⟨hcount, ?_, hother⟩
      show thread_inv db m a (ThreadState.checked (get_tx_by_action db m a))
      cases hfind : get_tx_by_action db m a with
      | none => trivial
      | some r => exact ⟨List.mem_of_find?_eq_some hfind, List.find?_some hfind⟩
  | checked found =>
      cases found with
      | some r =>
          obtain ⟨hm, hk⟩ := ht
          exact ⟨hcount, ⟨r, hm, hk, rfl⟩, hother⟩
      | none =>
          cases hex : tx_key_exists db m a with
          | true =>
              have henq : enqueue_tx db a m meth prms now =
                  Except.error "UNIQUE constraint failed: tx_queue.moltbook_id, tx_queue.action_id" := by
                unfold enqueue_tx
                rw [if_pos hex]
              simp only [thread_step, henq]
              obtain ⟨r, hm, hk⟩ := List.any_eq_true.mp hex
              exact ⟨hcount, ⟨r, hm, hk⟩, hother⟩
          | false =>
              have henq : enqueue_tx db a m meth prms now =
                  Except.ok (db ++
                    [{ id := next_tx_id db, action_id := a, moltbook_id := m,
                       method := meth, params := prms, status := Status.pending,
                       tx_hash := none, error := none, created_at := now,
                       updated_at := now }], next_tx_id db) := by
                unfold enqueue_tx
                rw [if_neg (by simp [hex])]
              simp only [thread_step, henq]
              have hnil : db.filter (tx_key m a) = [] :=
                List.filter_eq_nil_iff.mpr (by
                  intro x hx
                  exact (List.any_eq_false.mp hex) x hx)
              refine ⟨?_, ?_, thread_inv_append db _ m a other hother⟩
              · rw [List.filter_append, hnil]
                simp [tx_key]
              · refine ⟨{ id := next_tx_id db, action_id := a, moltbook_id := m,
                          method := meth, params := prms, status := Status.pending,
                          tx_hash := none, error := none, created_at := now,
                          updated_at := now }, ?_, by simp [tx_key], rfl⟩
                exact List.mem_append_right _ (List.mem_singleton_self _)
  | done res => exact ⟨hcount, ht, hother⟩

/-- One scheduled step preserves the system invariant. -/
theorem pair_inv_step (m a meth prms : String) (now : Nat) (s : PairState)
    (who : Bool) (h : pair_inv m a s) :
    pair_inv m a (sched_step m a meth prms now s who) := by
  obtain ⟨hc, h1, h2⟩ := h
  cases who with
  | false =>
      have hstep := thread_step_inv m a meth prms now s.db s.t1 s.t2 hc h1 h2
      exact ⟨hstep.1, hstep.2.1, hstep.2.2⟩
  | true =>
      have hstep := thread_step_inv m a meth prms now s.db s.t2 s.t1 hc h2 h1
      exact ⟨hstep.1, hstep.2.2, hstep.2.1⟩

/-- The system invariant holds after any whole schedule. -/
theorem pair_inv_run (m a meth prms : String) (now : Nat) (s : PairState)
    (sched : List Bool) (h : pair_inv m a s) :
    pair_inv m a (run_sched m a meth prms now s sched) := by
  induction sched generalizing s with
  | nil => exact h
  | cons who rest ih =>
      exact ih _ (pair_inv_step m a meth prms now s who h)

/-- When both handlers have finished, the table holds exactly one row for
the contested key and every id a caller observed is that row's id. -/
theorem both_done_unique (m a : String) (s : PairState) (h : pair_inv m a s)
    (r1 r2 : HandlerResult) (h1 : thread_result s.t1 = some r1)
    (h2 : thread_result s.t2 = some r2) :
    ∃ row, s.db.filter (tx_key m a) = [row] ∧
      (∀ i, result_id r1 = some i → i = row.id) ∧
      (∀ i, result_id r2 = some i → i = row.id) := by
  obtain ⟨hc, ht1, ht2⟩ := h
  cases hs1 : s.t1 with
  | start => rw [hs1] at h1; simp [thread_result] at h1
  | checked f => rw [hs1] at h1; simp [thread_result] at h1
  | done q1 =>
      cases hs2 : s.t2 with
      | start => rw [hs2] at h2; simp [thread_result] at h2
      | checked f => rw [hs2] at h2; simp [thread_result] at h2
      | done q2 =>
          rw [hs1] at h1 ht1
          rw [hs2] at h2 ht2
          have hq1 : q1 = r1 := by simpa [thread_result] using h1
          have hq2 : q2 = r2 := by simpa [thread_result] using h2
          subst hq1
          subst hq2
          have hex : ∃ r, r ∈ s.db ∧ tx_key m a r = true := by
            cases q1 with
            | echo i st hh =>
                obtain ⟨r, hm, hk, _⟩ := ht1
                exact ⟨r, hm, hk⟩
            | created i =>
                obtain ⟨r, hm, hk, _⟩ := ht1
                exact ⟨r, hm, hk⟩
            | dbError msg => exact ht1
          obtain ⟨r, hm, hk⟩ := hex
          have hmem : r ∈ s.db.filter (tx_key m a) :=
            List.mem_filter.mpr ⟨hm, hk⟩
          have hlen : (s.db.filter (tx_key m a)).length = 1 := by
            have hne := List.ne_nil_of_mem hmem
            have := List.length_pos.mpr hne
            omega
          obtain ⟨row, hrow⟩ := List.length_eq_one.mp hlen
          have hrowid : ∀ q : HandlerResult, thread_inv s.db m a
              (ThreadState.done q) → ∀ i, result_id q = some i → i = row.id := by
            intro q hq i hi
            cases q with
            | echo j st hh =>
                obtain ⟨r2', hm2, hk2, hid⟩ := hq
                have : r2' ∈ s.db.filter (tx_key m a) := List.mem_filter.mpr ⟨hm2, hk2⟩
                rw [hrow] at this
                have hr2row : r2' = row := List.mem_singleton.mp this
                have hij : i = j := by simpa [result_id] using hi.symm
                rw [hij, ← hid, hr2row]
            | created j =>
                obtain ⟨r2', hm2, hk2, hid⟩ := hq
                have : r2' ∈ s.db.filter (tx_key m a) := List.mem_filter.mpr ⟨hm2, hk2⟩
                rw [hrow] at this
                have hr2row : r2' = row := List.mem_singleton.mp this
                have hij : i = j := by simpa [result_id] using hi.symm
                rw [hij, ← hid, hr2row]
            | dbError msg => simp [result_id] at hi
          exact ⟨row, hrow, hrowid q1 ht1, hrowid q2 ht2⟩

/-- C1 counterexample: under the interleaving check–check–insert–insert of
two identical submissions on an empty table, exactly one QueueEntry row is
created, the first call returns it, but the second call ends in the
unhandled UNIQUE-violation error (surfaced as HTTP 500) and observes no
entry id at all — it does not receive the original entry. -/
theorem concurrent_duplicate_second_call_errors :
    ((run_sched "alice" "act1" "enterDungeon" "[1]" 0
        (PairState.mk [] ThreadState.start ThreadState.start)
        [false, true, false, true]).db.filter (tx_key "alice" "act1")).length = 1 ∧
    (run_sched "alice" "act1" "enterDungeon" "[1]" 0
        (PairState.mk [] ThreadState.start ThreadState.start)
        [false, true, false, true]).t1 =
      ThreadState.done (HandlerResult.created 1) ∧
    (run_sched "alice" "act1" "enterDungeon" "[1]" 0
        (PairState.mk [] ThreadState.start ThreadState.start)
        [false, true, false, true]).t2 =
      ThreadState.done (HandlerResult.dbError
        "UNIQUE constraint failed: tx_queue.moltbook_id, tx_queue.action_id") ∧
    result_id (HandlerResult.dbError
        "UNIQUE constraint failed: tx_queue.moltbook_id, tx_queue.action_id") = none := by
  refine ⟨by decide, by decide, by decide, by decide⟩

/-- C1 (amended): for a fresh (callerId, actionId): submitting it twice
sequentially creates the entry once and the second call echoes the
original entry id; under every interleaving of the two requests' database
statements, at most one row with that key ever exists, and once both calls
have finished there is exactly one such row and every id either call
observed is that row's id — but a losing concurrent duplicate can receive
the unhandled UNIQUE-violation error instead of the original entry. -/
theorem duplicate_submission_unique_entry (db : List TxRow)
    (m a meth prms : String) (now : Nat)
    (hfresh : tx_key_exists db m a = false) :
    ((run_sched m a meth prms now
        (PairState.mk db ThreadState.start ThreadState.start)
        [false, false, true, true]).t1 =
      ThreadState.done (HandlerResult.created (next_tx_id db)) ∧
     (run_sched m a meth prms now
        (PairState.mk db ThreadState.start ThreadState.start)
        [false, false, true, true]).t2 =
      ThreadState.done (HandlerResult.echo (next_tx_id db) Status.pending none)) ∧
    ∀ sched : List Bool,
      ((run_sched m a meth prms now
          (PairState.mk db ThreadState.start ThreadState.start)
          sched).db.filter (tx_key m a)).length ≤ 1 ∧
      ∀ r1 r2,
        thread_result (run_sched m a meth prms now
          (PairState.mk db ThreadState.start ThreadState.start) sched).t1 = some r1 →
        thread_result (run_sched m a meth prms now
          (PairState.mk db ThreadState.start ThreadState.start) sched).t2 = some r2 →
        ∃ row, (run_sched m a meth prms now
            (PairState.mk db ThreadState.start ThreadState.start) sched).db.filter
              (tx_key m a) = [row] ∧
          (∀ i, result_id r1 = some i → i = row.id) ∧
          (∀ i, result_id r2 = some i → i = row.id) := by
  have hfresh' : ∀ x ∈ db, ¬ (tx_key m a x = true) := List.any_eq_false.mp hfresh
  have hnone : db.find? (tx_key m a) = none := List.find?_eq_none.mpr hfresh'
  constructor
  · constructor <;>
      simp [run_sched, sched_step, thread_step, get_tx_by_action, hnone,
        enqueue_tx, hfresh, List.find?_append, tx_key]
  · intro sched
    have hnil : db.filter (tx_key m a) = [] :=
      List.filter_eq_nil_iff.mpr (by intro x hx; exact hfresh' x hx)
    have hinv : pair_inv m a (run_sched m a meth prms now
        (PairState.mk db ThreadState.start ThreadState.start) sched) := by
      refine pair_inv_run m a meth prms now _ sched ⟨?_, trivial, trivial⟩
      rw [hnil]
      simp
    exact ⟨hinv.1, fun r1 r2 h1 h2 => both_done_unique m a _ hinv r1 r2 h1 h2⟩

/-- Witness for C1: the sequential schedule on an empty table, and the
safety conclusion instantiated at a racing schedule. -/
theorem duplicate_submission_unique_entry_witness :
    tx_key_exists [] "alice" "act1" = false ∧
    (run_sched "alice" "act1" "enterDungeon" "[1]" 0
        (PairState.mk [] ThreadState.start ThreadState.start)
        [false, false, true, true]).t1 =
      ThreadState.done (HandlerResult.created 1) ∧
    (run_sched "alice" "act1" "enterDungeon" "[1]" 0
        (PairState.mk [] ThreadState.start ThreadState.start)
        [false, false, true, true]).t2 =
      ThreadState.done (HandlerResult.echo 1 Status.pending none) ∧
    ((run_sched "alice" "act1" "enterDungeon" "[1]" 0
        (PairState.mk [] ThreadState.start ThreadState.start)
        [true, false, true, false]).db.filter (tx_key "alice" "act1")).length ≤ 1 := by
  refine ⟨by decide, ?_, ?_, ?_⟩
  · exact (duplicate_submission_unique_entry [] "alice" "act1" "enterDungeon"
      "[1]" 0 (by decide)).1.1
  · exact (duplicate_submission_unique_entry [] "alice" "act1" "enterDungeon"
      "[1]" 0 (by decide)).1.2
  · exact ((duplicate_submission_unique_entry [] "alice" "act1" "enterDungeon"
      "[1]" 0 (by decide)).2 [true, false, true, false]).1

/-- The last intermediate table of `process_dbs` is the table
`process_single_tx` returns. -/
theorem process_dbs_last (env : ChainEnv) (db : List TxRow) (rdb : RewardDb)
    (tx : TxRow) (now : Nat) :
    (process_dbs env db tx now).getLast? =
      some (process_single_tx env db rdb tx now).1 := by
  unfold process_dbs process_single_tx
  cases hs : env.send_result with
  | error e => rfl
  | ok h =>
      cases hp : poll_result env.receipts with
      | none => rfl
      | some ok => cases ok <;> rfl

/-- C4: starting from a pending entry with no tx_hash, every observed state
of the entry across one worker pass (reconciliation inline) moves strictly
forward along pending → submitting → submitted → mined/failed, a set
tx_hash is never cleared or changed, and tx_hash only becomes non-null at
submitted or later; afterwards the entry is never pending again, so the
worker (which selects only pending rows) cannot process it twice; and the
traced tables are exactly the run of `process_single_tx`. -/
theorem status_monotone_txref_once (env : ChainEnv) (db : List TxRow)
    (rdb : RewardDb) (tx tx0 : TxRow) (now : Nat)
    (hrow : get_tx db tx.id = some tx0)
    (hpend : tx0.status = Status.pending) (hhash : tx0.tx_hash = none) :
    List.Chain' opt_step (entry_states env db tx now) ∧
    (∀ r, get_tx (process_single_tx env db rdb tx now).1 tx.id = some r →
      r.status ≠ Status.pending) ∧
    (process_dbs env db tx now).getLast? =
      some (process_single_tx env db rdb tx now).1 := by
  refine ⟨?_, ?_, process_dbs_last env db rdb tx now⟩
  · unfold entry_states process_dbs
    cases hs : env.send_result with
    | error e =>
        simp [get_tx_update_tx_status, hrow, hpend, hhash, opt_step,
          tx_step_ok, Status.rank]
    | ok h =>
        cases hp : poll_result env.receipts with
        | none =>
            simp [get_tx_update_tx_status, hrow, hpend, hhash, opt_step,
              tx_step_ok, Status.rank]
        | some ok =>
            cases ok <;>
              simp [get_tx_update_tx_status, hrow, hpend, hhash, opt_step,
                tx_step_ok, Status.rank]
  · unfold process_single_tx
    cases hs : env.send_result with
    | error e =>
        intro r hr
        simp only [get_tx_update_tx_status, hrow, Option.map_map, Option.map_some',
          Option.some.injEq] at hr
        subst hr
        simp
    | ok h =>
        cases hp : poll_result env.receipts with
        | none =>
            intro r hr
            simp only [get_tx_update_tx_status, hrow, Option.map_map, Option.map_some',
              Option.some.injEq] at hr
            subst hr
            simp
        | some ok =>
            cases ok <;>
              · intro r hr
                simp [get_tx_update_tx_status, hrow] at hr
                subst hr
                simp

/-- Witness for C4 on a concrete mined run. -/
theorem status_monotone_txref_once_witness :
    get_tx [enter_entry] enter_entry.id = some enter_entry ∧
    enter_entry.status = Status.pending ∧ enter_entry.tx_hash = none ∧
    (List.Chain' opt_step (entry_states
        (ChainEnv.mk (Except.ok "0xh") (fun _ => some true)) [enter_entry]
        enter_entry 9) ∧
      (∀ r, get_tx (process_single_tx
          (ChainEnv.mk (Except.ok "0xh") (fun _ => some true)) [enter_entry]
          (RewardDb.mk [] []) enter_entry 9).1 enter_entry.id = some r →
        r.status ≠ Status.pending) ∧
      (process_dbs (ChainEnv.mk (Except.ok "0xh") (fun _ => some true))
          [enter_entry] enter_entry 9).getLast? =
        some (process_single_tx
          (ChainEnv.mk (Except.ok "0xh") (fun _ => some true)) [enter_entry]
          (RewardDb.mk [] []) enter_entry 9).1) := by
  refine ⟨by decide, by decide, by decide, ?_⟩
  exact status_monotone_txref_once
    (ChainEnv.mk (Except.ok "0xh") (fun _ => some true)) [enter_entry]
    (RewardDb.mk [] []) enter_entry enter_entry 9 (by decide) (by decide)
    (by decide)

/-! ## C5 — entry bond on broadcast -/

/-- C5 (evaluating the code at the failing input): for a pending
enterDungeon entry the worker computes the 0.01-MON entry bond, but passes
it as the keyword argument `value=` which `ContractClient.send_tx(self,
method, *args)` does not accept — the call raises TypeError before
building any transaction (the built-transaction dict has no value key at
all), and the worker marks the entry failed with the TypeError text and no
tx_hash; the claimed broadcast-with-bond-then-submitted outcome never
happens. -/
theorem enter_bond_typeerror :
    worker_value "enterDungeon" = ENTRY_BOND ∧
    actual_send_result none 7 1000 "enterDungeon" ["1"] (fun _ => "0x0") true =
      Except.error "TypeError: send_tx() got an unexpected keyword argument" ∧
    actual_send_result none 7 1000 "enterDungeon" ["1"] (fun _ => "0x0") false =
      Except.error "TypeError: send_tx() got an unexpected keyword argument" ∧
    (worker_send none 7 1000 "enterDungeon" ["1"] true).2 = none ∧
    (process_single_tx
        (ChainEnv.mk
          (actual_send_result none 7 1000 "enterDungeon" ["1"] (fun _ => "0x0") true)
          (fun _ => none))
        [enter_entry] (RewardDb.mk [] []) enter_entry 5).1 =
      [{ enter_entry with
         status := Status.failed, tx_hash := none,
         error := some "TypeError: send_tx() got an unexpected keyword argument",
         updated_at := 5 }] ∧
    (process_single_tx
        (ChainEnv.mk
          (actual_send_result none 7 1000 "enterDungeon" ["1"] (fun _ => "0x0") true)
          (fun _ => none))
        [enter_entry] (RewardDb.mk [] []) enter_entry 5).2 = RewardDb.mk [] [] := by
  refine ⟨by decide, rfl, rfl, by decide, by decide, by decide⟩

/-- Witness for C6 at a concrete input. -/
theorem award_twice_changes_stats_once_witness :
    has_event_key (RewardDb.mk [] []).xp_events "k1" = false ∧
    (award_xp (RewardDb.mk [] []) "k1" "alice" 1 2 "win" 50 5 "test" none 10).2 = true ∧
    (award_xp (award_xp (RewardDb.mk [] []) "k1" "alice" 1 2 "win" 50 5 "test" none 10).1
        "k1" "alice" 1 2 "win" 999 0 "test" none 11).2 = false := by
  have h := award_twice_changes_stats_once (RewardDb.mk [] []) "k1" "alice" "alice"
    "test" "test" 1 2 1 2 "win" "win" 50 5 999 0 none none 10 11 (by decide)
  exact ⟨by decide, h.1, h.2.2.1⟩

end Gateway
